import Mathlib

/-!
Shallow embedding of the kayak trip-planner bot core and a verification of the
specification's claims against it.

Sources embedded:
- src/ice_system.py   (ICE check-in monitoring: `start_trip_monitoring`,
  `_send_check_in_reminder`, `_confirm_safe_return`, `_trigger_emergency_response`)
- src/trip_planner.py (`plan_trip`, `_assess_safety`)
- src/database.py     (`add_ice_contact`, `get_ice_contacts`)

Conventions: wall-clock instants are integers (seconds); Python floats compared
against integer thresholds are embedded as rationals; Python dicts keyed by trip
id are association lists with overwrite-on-assign semantics; each
`asyncio.create_task(ice_system.start_trip_monitoring(...))` is one concurrent
check-in sequence, modelled by a phase marker (before the sleep / inside the
bounded `wait_for` / finished), and the interleaving of sequences with external
`_confirm_safe_return` calls is a labelled step relation.
-/

namespace KayakTrip

/-! ### ICE monitoring state (src/ice_system.py) -/

/-- One value of the `active_trips` dict (ice_system.py lines 15-21):
`user_id`, `start_time`, `duration` (hours), `channel`, and
`check_in_required` (an absolute instant, seconds). -/
structure TripRec where
  user_id : Nat
  start_time : Int
  duration : Int
  channel : Nat
  check_in_required : Int
  deriving Repr, DecidableEq

/-- The dict literal built by `start_trip_monitoring` (ice_system.py lines 15-21):
`check_in_required = datetime.now() + timedelta(hours=duration_hours + 1)`,
converted to seconds (one hour = 3600 s). -/
def mkTripRec (now : Int) (uid : Nat) (dur : Int) (chan : Nat) : TripRec :=
  { user_id := uid, start_time := now, duration := dur, channel := chan,
    check_in_required := now + (dur + 1) * 3600 }

/-- ice_system.py line 24: `await asyncio.sleep(duration_hours * 3600)` —
the number of seconds the check-in sequence sleeps before the reminder. -/
def sleep_seconds (r : TripRec) : Int := r.duration * 3600

/-- The absolute instant at which the check-in reminder fires: the trip's
start instant plus the slept seconds. -/
def reminder_fire_time (r : TripRec) : Int := r.start_time + sleep_seconds r

/-- The `active_trips` dict, keyed by trip id. -/
abbrev Trips := List (Nat × TripRec)

/-- Membership test `trip_id in self.active_trips` and access
`self.active_trips[trip_id]`: look a trip
id up in the map. -/
def lookupTrip : Trips → Nat → Option TripRec
  | [], _ => none
  | p :: rest, tid => if p.1 == tid then some p.2 else lookupTrip rest tid

/-- Deletion `del self.active_trips[trip_id]` (ice_system.py line 82). -/
def eraseTrip (ts : Trips) (tid : Nat) : Trips := ts.filter (fun p => !(p.1 == tid))

/-- Assignment `self.active_trips[trip_id] = {...}` (ice_system.py line 15): dict
assignment — any previous binding of the key is replaced by the new record. -/
def setTrip (ts : Trips) (tid : Nat) (r : TripRec) : Trips := eraseTrip ts tid ++ [(tid, r)]

/-- Number of entries of the `active_trips` map bound to a given trip id. -/
def countKey (ts : Trips) (tid : Nat) : Nat := (ts.filter (fun p => p.1 == tid)).length

/-- User-visible notifications emitted by the ICE subsystem. -/
inductive Event
  /-- The "Trip Check-In Required" direct message (ice_system.py lines 36-49). -/
  | reminderSent (tid : Nat)
  /-- The "Safe Return Confirmed" direct message (ice_system.py lines 74-79). -/
  | safeAck (tid : Nat)
  /-- The "EMERGENCY - OVERDUE KAYAKER" channel broadcast (ice_system.py lines 96-128). -/
  | escalation (tid : Nat)
  deriving Repr, DecidableEq

/-- Result of `_confirm_safe_return` (ice_system.py lines 67-82): the updated
`active_trips`, the notifications sent, and the Python return value.  The
function body has no `return` statement, so the Python call evaluates to
`None` on every path; `ret` records that value (`none`), with `some b`
reserved for a hypothetical boolean report. -/
structure ConfirmResult where
  trips : Trips
  events : List Event
  ret : Option Bool
  deriving Repr, DecidableEq

/-- Embeds `_confirm_safe_return(trip_id)` (ice_system.py lines 67-82), parameterised
by `g`: whether `self.bot.get_user(uid)` yields a user.  If the trip id is
absent nothing happens; otherwise the acknowledgment is sent when the user
resolves, and the entry is deleted unconditionally. -/
def confirm_safe_return (g : Nat → Bool) (ts : Trips) (tid : Nat) : ConfirmResult :=
  match lookupTrip ts tid with
  | none => { trips := ts, events := [], ret := none }
  | some trip =>
      { trips := eraseTrip ts tid,
        events := if g trip.user_id then [Event.safeAck tid] else [],
        ret := none }

/-- Embeds `_trigger_emergency_response(trip_id)` (ice_system.py lines 84-137): returns
early when the trip id is absent; otherwise broadcasts the emergency embed to
the ICE channel.  Note that the body never deletes `active_trips[trip_id]`
and stores no "escalated" mark, so the state is returned unchanged. -/
def trigger_emergency_response (ts : Trips) (tid : Nat) : Trips × List Event :=
  match lookupTrip ts tid with
  | none => (ts, [])
  | some _ => (ts, [Event.escalation tid])

/-- Control position of one spawned `start_trip_monitoring` task:
`sleeping` before `asyncio.sleep` returns (line 24), `waiting` inside the
bounded `bot.wait_for` (lines 52-57), `done` after the coroutine finished. -/
inductive Phase
  | sleeping
  | waiting
  | done
  deriving Repr, DecidableEq

/-- One spawned check-in sequence (one `create_task` of `start_trip_monitoring`). -/
structure CheckInSeq where
  tid : Nat
  phase : Phase
  deriving Repr, DecidableEq

/-- Global ICE-system configuration: the `active_trips` dict, the spawned
check-in sequences in spawn order, and the notifications emitted so far. -/
structure Config where
  trips : Trips
  seqs : List CheckInSeq
  events : List Event
  deriving Repr, DecidableEq

def Config.init : Config := { trips := [], seqs := [], events := [] }

/-- Outcome of the bounded `bot.wait_for('reaction_add', timeout=3600, ...)`
(ice_system.py lines 52-65): the owner reacts with the confirm emoji, reacts
with the help emoji, or the one-hour window elapses. -/
inductive Response
  | confirmEmoji
  | helpEmoji
  | timedOut
  deriving Repr, DecidableEq

/-- Interleaving actions on the ICE system.
`start` is a `create_task(start_trip_monitoring ...)` call up to its first
await (it stores the dict entry, lines 15-21, and leaves the new sequence
sleeping); `wake i` resumes sequence `i` from `asyncio.sleep` and runs
`_send_check_in_reminder` up to the `wait_for`; `respond i r` resolves that
wait and runs the dispatch (lines 59-65); `confirmCall tid` is an external
`_confirm_safe_return` call (the `checkin` command or a reaction handler in
src/bot.py). -/
inductive Action
  | start (tid uid : Nat) (dur now : Int) (chan : Nat)
  | wake (i : Nat)
  | respond (i : Nat) (r : Response)
  | confirmCall (tid : Nat)
  deriving Repr, DecidableEq

/-- The synchronous prefix of `start_trip_monitoring` (ice_system.py
lines 13-21) followed by spawning the rest of the coroutine: the dict entry
is assigned unconditionally — there is no existence or duration check — and
one more sequence starts sleeping. -/
def start_trip_monitoring (c : Config) (tid uid : Nat) (dur now : Int) (chan : Nat) : Config :=
  { c with trips := setTrip c.trips tid (mkTripRec now uid dur chan),
           seqs := c.seqs ++ [{ tid := tid, phase := Phase.sleeping }] }

/-- One interleaving step, parameterised by `g : Nat → Bool` (whether
`bot.get_user` resolves a user id).  `none` means the action is not enabled
(no such sequence, or the sequence is not at that suspension point).
`wake`: `_send_check_in_reminder` returns at once when the trip id is no
longer in `active_trips` (lines 29-30) or when the user does not resolve
(everything is under `if user:`, line 35); otherwise it sends the reminder
and enters the bounded wait.  `respond`: the confirm emoji runs
`_confirm_safe_return`, the help emoji and the timeout run
`_trigger_emergency_response` (lines 59-65). -/
def step (g : Nat → Bool) (c : Config) : Action → Option Config
  | Action.start tid uid dur now chan => some (start_trip_monitoring c tid uid dur now chan)
  | Action.wake i =>
      match c.seqs.get? i with
      | none => none
      | some s =>
          match s.phase with
          | Phase.sleeping =>
              match lookupTrip c.trips s.tid with
              | none => some { c with seqs := c.seqs.set i { tid := s.tid, phase := Phase.done } }
              | some trip =>
                  if g trip.user_id then
                    some { c with
                      seqs := c.seqs.set i { tid := s.tid, phase := Phase.waiting },
                      events := c.events ++ [Event.reminderSent s.tid] }
                  else
                    some { c with seqs := c.seqs.set i { tid := s.tid, phase := Phase.done } }
          | _ => none
  | Action.respond i r =>
      match c.seqs.get? i with
      | none => none
      | some s =>
          match s.phase with
          | Phase.waiting =>
              match r with
              | Response.confirmEmoji =>
                  let res := confirm_safe_return g c.trips s.tid
                  some { trips := res.trips,
                         seqs := c.seqs.set i { tid := s.tid, phase := Phase.done },
                         events := c.events ++ res.events }
              | _ =>
                  let res := trigger_emergency_response c.trips s.tid
                  some { trips := res.1,
                         seqs := c.seqs.set i { tid := s.tid, phase := Phase.done },
                         events := c.events ++ res.2 }
          | _ => none
  | Action.confirmCall tid =>
      let res := confirm_safe_return g c.trips tid
      some { c with trips := res.trips, events := c.events ++ res.events }

/-- Run a list of interleaving actions; fails if any action is not enabled. -/
def run (g : Nat → Bool) (c : Config) : List Action → Option Config
  | [] => some c
  | a :: rest =>
      match step g c a with
      | none => none
      | some c' => run g c' rest

/-- The spawned check-in sequences belonging to one trip id. -/
def seqsFor (c : Config) (tid : Nat) : List CheckInSeq :=
  c.seqs.filter (fun s => s.tid == tid)

/-! ### Safety scoring (src/trip_planner.py, `_assess_safety`, lines 76-113) -/

/-- Fields of `weather['current']` read by `_assess_safety`. -/
structure CurrentWeather where
  wind_speed : ℚ
  deriving Repr, DecidableEq

/-- One entry of `weather['forecast']`; `forecast.get('precipitation', 0)`
defaults a missing key to 0, so the field is total. -/
structure ForecastEntry where
  precipitation : ℚ
  deriving Repr, DecidableEq

/-- The structured weather dictionary produced by
`WeatherService._format_weather_data`. -/
structure WeatherDict where
  current : CurrentWeather
  forecast : List ForecastEntry
  deriving Repr, DecidableEq

/-- The `weather` argument of `_assess_safety`: either the structured dict or
a non-dict value such as the error string
`"Error fetching weather data: ..."` returned by
`WeatherService.get_weather_forecast` on a fetch failure
(src/weather_service.py lines 36-46). -/
inductive WeatherData
  | dict (w : WeatherDict)
  | err (s : String)
  deriving Repr, DecidableEq

/-- The error string `get_weather_forecast` returns when the HTTP fetch raises
(src/weather_service.py line 46). -/
def weatherFetchError (e : String) : WeatherData :=
  WeatherData.err ("Error fetching weather data: " ++ e)

/-- trip_planner.py line 85. -/
def windWarning : String := "High wind speeds expected"

/-- trip_planner.py line 91. -/
def precipWarning : String := "Precipitation expected"

/-- The score/warnings accumulation of `_assess_safety` (lines 78-92):
start from 100 and `[]`; subtract 30 and append the wind warning when
`weather['current']['wind_speed'] > 15`; then the forecast loop subtracts 20
and appends the precipitation warning at the first interval with
`precipitation > 0` and breaks — i.e. once iff some interval has positive
precipitation.  Both penalties are inside `isinstance(weather, dict)`. -/
def assessScoreWarnings (w : WeatherDict) : Int × List String :=
  let s1 : Int := if 15 < w.current.wind_speed then 100 - 30 else 100
  let w1 : List String := if 15 < w.current.wind_speed then [windWarning] else []
  let hit := w.forecast.any (fun f => decide (0 < f.precipitation))
  (if hit then s1 - 20 else s1, if hit then w1 ++ [precipWarning] else w1)

/-- The level/colour ladder of `_assess_safety` (lines 94-106). -/
def levelColor (score : Int) : String × Nat :=
  if 80 ≤ score then ("GOOD", 0x00FF00)
  else if 60 ≤ score then ("FAIR", 0xFFFF00)
  else if 40 ≤ score then ("POOR", 0xFF6B35)
  else ("DANGEROUS", 0xFF0000)

/-- The dict returned by `_assess_safety` (lines 108-113). -/
structure SafetyAssessment where
  score : Int
  level : String
  color : Nat
  warnings : List String
  deriving Repr, DecidableEq

/-- Embeds `_assess_safety(weather, tides, currents)` (trip_planner.py lines 76-113).
The `tides` and `currents` parameters are never read by the body, so they are
omitted here.  A non-dict `weather` fails the `isinstance` test and no
penalty applies. -/
def assess_safety : WeatherData → SafetyAssessment
  | WeatherData.dict w =>
      let sw := assessScoreWarnings w
      { score := sw.1, level := (levelColor sw.1).1, color := (levelColor sw.1).2,
        warnings := sw.2 }
  | WeatherData.err _ =>
      { score := 100, level := (levelColor 100).1, color := (levelColor 100).2,
        warnings := [] }

/-! ### Trip planning (src/trip_planner.py, `plan_trip`, lines 36-74) -/

/-- The collaborators `plan_trip` consults, abstracted as functions:
geocoding (`self.geolocator.geocode`, yielding coordinates or nothing),
`WeatherService.get_weather_forecast`, `TideService.get_tide_data` and
`CurrentService.get_current_data` (whose result shapes, irrelevant to the
claims, are the type parameters). -/
structure Collaborators (τ κ : Type) where
  geocode : String → Option (ℚ × ℚ)
  get_weather_forecast : ℚ → ℚ → String → WeatherData
  get_tide_data : String → String → τ
  get_current_data : String → String → κ

/-- The dict returned by a successful `plan_trip` (lines 58-69). -/
structure TripPlan (τ κ : Type) where
  trip_name : Option String
  location : String
  coordinates : ℚ × ℚ
  date : String
  time : String
  duration : Int
  weather : WeatherData
  tides : τ
  currents : κ
  safety : SafetyAssessment

/-- Which collaborator calls `plan_trip` performed, in order. -/
inductive CollabCall
  | geocodeCall
  | weatherCall
  | tideCall
  | currentCall
  deriving Repr, DecidableEq

/-- Embeds `plan_trip` (trip_planner.py lines 36-74) with its collaborator-call log.
Geocoding happens first; when it yields nothing the function returns
`(None, "Location not found")` at line 42, before any weather/tide/current
call.  Otherwise it fetches weather, tides (station `"8518750"`), currents
(station `"PCT0301"`), assesses safety, and returns the plan with no error.
The surrounding `try/except` only matters for raising collaborators, which
this embedding models as total functions. -/
def plan_trip {τ κ : Type} (env : Collaborators τ κ) (location date time : String)
    (duration : Int) (trip_name : Option String) :
    (Option (TripPlan τ κ) × Option String) × List CollabCall :=
  match env.geocode location with
  | none => ((none, some "Location not found"), [CollabCall.geocodeCall])
  | some latlon =>
      let weather_data := env.get_weather_forecast latlon.1 latlon.2 date
      let tide_data := env.get_tide_data "8518750" date
      let current_data := env.get_current_data "PCT0301" date
      let safety := assess_safety weather_data
      ((some { trip_name := trip_name, location := location, coordinates := latlon,
               date := date, time := time, duration := duration,
               weather := weather_data, tides := tide_data, currents := current_data,
               safety := safety }, none),
       [CollabCall.geocodeCall, CollabCall.weatherCall, CollabCall.tideCall,
        CollabCall.currentCall])

/-! ### Emergency-contact storage (src/database.py, lines 60-83) -/

/-- One row of the `ice_contacts` table (src/database.py lines 32-41). -/
structure IceContact where
  id : Nat
  user_id : Nat
  contact_name : String
  contact_phone : String
  relationship : String
  is_primary : Bool
  deriving Repr, DecidableEq

/-- The `ice_contacts` table, rows in rowid (insertion) order. -/
abbrev ContactDB := List IceContact

/-- The statement `UPDATE ice_contacts SET is_primary = FALSE WHERE user_id = ?`
(database.py line 66). -/
def demoteAll (db : ContactDB) (uid : Nat) : ContactDB :=
  db.map (fun c => if c.user_id = uid then { c with is_primary := false } else c)

/-- Embeds `add_ice_contact` (database.py lines 60-74): when the new contact is
primary, first demote every contact of that owner, then insert the new row
(AUTOINCREMENT id supplied by the caller as `nextId`). -/
def add_ice_contact (db : ContactDB) (nextId : Nat) (uid : Nat)
    (name phone rel : String) (is_primary : Bool) : ContactDB :=
  (if is_primary then demoteAll db uid else db) ++
    [{ id := nextId, user_id := uid, contact_name := name, contact_phone := phone,
       relationship := rel, is_primary := is_primary }]

/-- Embeds `get_ice_contacts` (database.py lines 76-83):
`SELECT * FROM ice_contacts WHERE user_id = ?` with no ORDER BY — rows come
back in table (rowid) order, filtered by owner. -/
def get_ice_contacts (db : ContactDB) (uid : Nat) : ContactDB :=
  db.filter (fun c => c.user_id == uid)

/-- One `add_ice_contact` request. -/
structure AddOp where
  user_id : Nat
  contact_name : String
  contact_phone : String
  relationship : String
  is_primary : Bool

/-- Replay a sequence of `add_ice_contact` calls against the table, assigning
consecutive rowids starting from `nid`. -/
def runAdds (db : ContactDB) (nid : Nat) : List AddOp → ContactDB
  | [] => db
  | op :: rest =>
      runAdds
        (add_ice_contact db nid op.user_id op.contact_name op.contact_phone
          op.relationship op.is_primary)
        (nid + 1) rest

/-- Whether every primary-flagged contact precedes every non-primary one. -/
def primaryFirst : ContactDB → Bool
  | [] => true
  | c :: rest =>
      if c.is_primary then primaryFirst rest
      else rest.all (fun d => !d.is_primary)

/-- Number of primary-flagged contacts the owner's contact list contains. -/
def primaryCount (db : ContactDB) (uid : Nat) : Nat :=
  ((get_ice_contacts db uid).filter (fun c => c.is_primary)).length

/-! ### Named conclusions of the claims (predicates reused by the witnesses) -/

/-- What the response-window dispatch of `_send_check_in_reminder` actually
guarantees when the watch is still active and the owner resolvable: exactly
one of the safe-return acknowledgment or the emergency escalation is emitted
by the dispatch itself; but the escalation branch leaves the watch in
`active_trips` (no deletion, no escalated mark), so a `_confirm_safe_return`
issued afterwards still sends the acknowledgment for the same watch. -/
def RespondDispatch (g : Nat → Bool) (c c' : Config) (s : CheckInSeq) (r : Response)
    (tr : TripRec) : Prop :=
  (r = Response.confirmEmoji ∧ c'.events = c.events ++ [Event.safeAck s.tid]
      ∧ lookupTrip c'.trips s.tid = none)
  ∨ (r ≠ Response.confirmEmoji ∧ c'.events = c.events ++ [Event.escalation s.tid]
      ∧ c'.trips = c.trips ∧ lookupTrip c'.trips s.tid = some tr
      ∧ (confirm_safe_return g c'.trips s.tid).events = [Event.safeAck s.tid])

/-- Idempotence shape of `_confirm_safe_return`: the first call on a state
holding the watch sends exactly one acknowledgment, removes the watch and
returns `None`; the second call on the resulting state emits nothing,
changes nothing, and again returns `None` (not a boolean report). -/
def ConfirmIdem (g : Nat → Bool) (ts : Trips) (tid : Nat) : Prop :=
  (confirm_safe_return g ts tid).events = [Event.safeAck tid] ∧
  lookupTrip (confirm_safe_return g ts tid).trips tid = none ∧
  (confirm_safe_return g ts tid).ret = none ∧
  (confirm_safe_return g (confirm_safe_return g ts tid).trips tid).events = [] ∧
  (confirm_safe_return g (confirm_safe_return g ts tid).trips tid).trips
      = (confirm_safe_return g ts tid).trips ∧
  (confirm_safe_return g (confirm_safe_return g ts tid).trips tid).ret = none

/-- A sleeping sequence whose watch was already resolved wakes into
termination: no event, no state change, and the finished sequence enables no
further wake or response dispatch. -/
def WakeSkips (g : Nat → Bool) (c c' : Config) (i : Nat) (s : CheckInSeq) : Prop :=
  c'.events = c.events ∧ c'.trips = c.trips ∧
  c'.seqs.get? i = some { tid := s.tid, phase := Phase.done } ∧
  step g c' (Action.wake i) = none ∧
  step g c' (Action.respond i Response.confirmEmoji) = none ∧
  step g c' (Action.respond i Response.helpEmoji) = none ∧
  step g c' (Action.respond i Response.timedOut) = none

/-- What `start_trip_monitoring` does on a fresh system for a non-positive
duration: the call is accepted, the watch is created, one sequence is
scheduled, its sleep is of non-positive length (so it elapses immediately),
and the wake sends the check-in reminder at once. -/
def InstantOverdueStart (g : Nat → Bool) (tid uid : Nat) (dur now : Int) (chan : Nat) : Prop :=
  step g Config.init (Action.start tid uid dur now chan)
      = some (start_trip_monitoring Config.init tid uid dur now chan) ∧
  lookupTrip (start_trip_monitoring Config.init tid uid dur now chan).trips tid
      = some (mkTripRec now uid dur chan) ∧
  (seqsFor (start_trip_monitoring Config.init tid uid dur now chan) tid).length = 1 ∧
  sleep_seconds (mkTripRec now uid dur chan) ≤ 0 ∧
  (step g (start_trip_monitoring Config.init tid uid dur now chan) (Action.wake 0)).map
      Config.events = some [Event.reminderSent tid]

/-- The scoring behaviour of `_assess_safety` on a structured weather dict, as
the spec's scoring table states it. -/
def ScoringTable (w : WeatherDict) : Prop :=
  ((w.current.wind_speed ≤ 15 ∧ ∀ f ∈ w.forecast, f.precipitation = 0) →
      assess_safety (WeatherData.dict w)
        = { score := 100, level := "GOOD", color := 0x00FF00, warnings := [] }) ∧
  ((15 < w.current.wind_speed ∧ ∀ f ∈ w.forecast, f.precipitation = 0) →
      (assess_safety (WeatherData.dict w)).score = 70 ∧
      (assess_safety (WeatherData.dict w)).level = "FAIR" ∧
      (assess_safety (WeatherData.dict w)).warnings = [windWarning] ∧
      "wind".toList <:+: windWarning.toList) ∧
  ((w.current.wind_speed ≤ 15 ∧ ∃ f ∈ w.forecast, f.precipitation ≠ 0) →
      (assess_safety (WeatherData.dict w)).score = 80 ∧
      (assess_safety (WeatherData.dict w)).warnings = [precipWarning] ∧
      "Precipitation".toList <:+: precipWarning.toList) ∧
  ((15 < w.current.wind_speed ∧ ∃ f ∈ w.forecast, f.precipitation ≠ 0) →
      (assess_safety (WeatherData.dict w)).score = 50) ∧
  (80 ≤ (assess_safety (WeatherData.dict w)).score →
      (assess_safety (WeatherData.dict w)).level = "GOOD") ∧
  (60 ≤ (assess_safety (WeatherData.dict w)).score ∧
      (assess_safety (WeatherData.dict w)).score < 80 →
      (assess_safety (WeatherData.dict w)).level = "FAIR") ∧
  (40 ≤ (assess_safety (WeatherData.dict w)).score ∧
      (assess_safety (WeatherData.dict w)).score < 60 →
      (assess_safety (WeatherData.dict w)).level = "POOR") ∧
  ((assess_safety (WeatherData.dict w)).score < 40 →
      (assess_safety (WeatherData.dict w)).level = "DANGEROUS")

/-- The failed-geocode behaviour of `plan_trip`: the stated error result, and
no weather/tide/current collaborator call in the log. -/
def GeoMissResult {τ κ : Type} (env : Collaborators τ κ) (location date time : String)
    (duration : Int) (trip_name : Option String) : Prop :=
  plan_trip env location date time duration trip_name
      = ((none, some "Location not found"), [CollabCall.geocodeCall]) ∧
  CollabCall.weatherCall ∉ (plan_trip env location date time duration trip_name).2 ∧
  CollabCall.tideCall ∉ (plan_trip env location date time duration trip_name).2 ∧
  CollabCall.currentCall ∉ (plan_trip env location date time duration trip_name).2

/-! ### Helper lemmas about the `active_trips` map -/

theorem lookupTrip_eraseTrip_self (ts : Trips) (tid : Nat) :
    lookupTrip (eraseTrip ts tid) tid = none := by
  induction ts with
  | nil => rfl
  | cons p rest ih =>
      by_cases h : p.1 = tid
      · simpa [eraseTrip, List.filter_cons, h] using ih
      · simpa [eraseTrip, List.filter_cons, h, lookupTrip] using ih

theorem lookupTrip_append_of_none {ts₁ : Trips} (ts₂ : Trips) (tid : Nat)
    (h : lookupTrip ts₁ tid = none) :
    lookupTrip (ts₁ ++ ts₂) tid = lookupTrip ts₂ tid := by
  induction ts₁ with
  | nil => rfl
  | cons p rest ih =>
      by_cases hp : p.1 = tid
      · simp [lookupTrip, hp] at h
      · simp only [List.cons_append, lookupTrip, beq_iff_eq, hp, if_false] at h ⊢
        exact ih h

theorem lookupTrip_setTrip_self (ts : Trips) (tid : Nat) (r : TripRec) :
    lookupTrip (setTrip ts tid r) tid = some r := by
  rw [setTrip, lookupTrip_append_of_none _ tid (lookupTrip_eraseTrip_self ts tid)]
  simp [lookupTrip]

theorem countKey_append (ts₁ ts₂ : Trips) (tid : Nat) :
    countKey (ts₁ ++ ts₂) tid = countKey ts₁ tid + countKey ts₂ tid := by
  simp [countKey, List.filter_append]

theorem countKey_eraseTrip_self (ts : Trips) (tid : Nat) :
    countKey (eraseTrip ts tid) tid = 0 := by
  induction ts with
  | nil => rfl
  | cons p rest ih =>
      by_cases h : p.1 = tid
      · simp only [eraseTrip, countKey, List.filter_cons, h] at ih ⊢
        simp [ih]
      · simp only [eraseTrip, countKey, List.filter_cons, h] at ih ⊢
        simp [h, ih]

theorem countKey_setTrip_self (ts : Trips) (tid : Nat) (r : TripRec) :
    countKey (setTrip ts tid r) tid = 1 := by
  rw [setTrip, countKey_append, countKey_eraseTrip_self]
  simp [countKey]

theorem get?_set_self {α : Type} (l : List α) (i : Nat) (a b : α)
    (h : l.get? i = some a) : (l.set i b).get? i = some b := by
  induction l generalizing i with
  | nil => simp at h
  | cons x xs ih =>
      cases i with
      | zero => rfl
      | succ n => simpa using ih n (by simpa using h)

/-! ### Claim C1 -/

/-- Claim C1 as stated is false of the code.  First trace: a single watch whose
sequence reaches the response window times out (one escalation), yet because
`_trigger_emergency_response` neither deletes `active_trips[trip_id]` nor
marks the watch, a later `_confirm_safe_return` (the `checkin` command) still
sends the safe-return confirmation — both outcomes result for the same
watch, refuting "never both".  Second trace: a duplicated sequence (itself
producible, see C2) escalates the same still-active watch a second time,
refuting "never escalates a second time". -/
theorem C1_counterexample :
    (run (fun _ => true) Config.init
        [Action.start 1 7 2 0 5, Action.wake 0, Action.respond 0 Response.timedOut,
         Action.confirmCall 1]).map Config.events
      = some [Event.reminderSent 1, Event.escalation 1, Event.safeAck 1] ∧
    (run (fun _ => true) Config.init
        [Action.start 1 7 2 0 5, Action.start 1 7 2 0 5, Action.wake 0,
         Action.respond 0 Response.timedOut, Action.wake 1,
         Action.respond 1 Response.timedOut]).map
        (fun c => (c.events.filter (fun e => decide (e = Event.escalation 1))).length)
      = some 2 := by decide

/-- Claim C1 (amended): when a check-in sequence's response window resolves
with the watch still active and the owner resolvable, the dispatch itself
emits exactly one of safe-return confirmation or escalation (confirmation on
the confirm emoji, escalation on the help emoji or the timeout); however the
escalation branch leaves the watch in the active set with no escalated mark,
so a subsequent `_confirm_safe_return` still emits a confirmation for the
same watch, and nothing prevents a second escalation trigger from firing
again. -/
theorem C1_amended (g : Nat → Bool) (c c' : Config) (i : Nat) (r : Response)
    (s : CheckInSeq) (tr : TripRec)
    (hs : c.seqs.get? i = some s) (hw : s.phase = Phase.waiting)
    (ht : lookupTrip c.trips s.tid = some tr) (hu : g tr.user_id = true)
    (hstep : step g c (Action.respond i r) = some c') :
    RespondDispatch g c c' s r tr := by
  unfold RespondDispatch
  cases r with
  | confirmEmoji =>
      left
      simp only [step, hs, hw, Option.some.injEq] at hstep
      subst hstep
      simp [confirm_safe_return, ht, hu, lookupTrip_eraseTrip_self]
  | helpEmoji =>
      right
      simp only [step, hs, hw, Option.some.injEq] at hstep
      subst hstep
      simp [trigger_emergency_response, confirm_safe_return, ht, hu]
  | timedOut =>
      right
      simp only [step, hs, hw, Option.some.injEq] at hstep
      subst hstep
      simp [trigger_emergency_response, confirm_safe_return, ht, hu]

/-- Witness for `C1_amended` at a concrete waiting configuration, timing out. -/
theorem C1_amended_witness :
    RespondDispatch (fun _ => true)
      { trips := [(1, mkTripRec 0 7 2 5)],
        seqs := [{ tid := 1, phase := Phase.waiting }], events := [] }
      { trips := [(1, mkTripRec 0 7 2 5)],
        seqs := [{ tid := 1, phase := Phase.done }], events := [Event.escalation 1] }
      { tid := 1, phase := Phase.waiting } Response.timedOut (mkTripRec 0 7 2 5) :=
  C1_amended (fun _ => true) _ _ 0 Response.timedOut _ _ (by decide) (by decide)
    (by decide) (by decide) (by decide)

/-! ### Claim C2 -/

/-- Claim C2 as stated is false of the code: `start_trip_monitoring` has no
existence check, so a second call for trip id 1 is not a no-op — it
overwrites the dict entry with the second call's parameters (the new watch,
not the pre-existing one, is authoritative) and spawns a second check-in
sequence for the same id. -/
theorem C2_counterexample :
    (run (fun _ => true) Config.init
        [Action.start 1 7 2 0 5, Action.start 1 9 3 100 6]).map
        (fun c => ((seqsFor c 1).length, lookupTrip c.trips 1, countKey c.trips 1))
      = some (2, some (mkTripRec 100 9 3 6), 1) := by decide

/-- Claim C2 (amended): starting a watch twice for the same trip id leaves
exactly one `active_trips` entry for that id (dict overwrite), but the entry
holds the second call's record — the new watch is authoritative — and two
concurrent check-in sequences are scheduled for the id, not one. -/
theorem C2_amended (g : Nat → Bool) (c c' c'' : Config) (tid uid uid' chan chan' : Nat)
    (dur dur' now now' : Int)
    (h1 : step g c (Action.start tid uid dur now chan) = some c')
    (h2 : step g c' (Action.start tid uid' dur' now' chan') = some c'') :
    lookupTrip c''.trips tid = some (mkTripRec now' uid' dur' chan') ∧
    countKey c''.trips tid = 1 ∧
    (seqsFor c'' tid).length = (seqsFor c tid).length + 2 := by
  simp only [step, Option.some.injEq] at h1 h2
  subst h1
  subst h2
  refine ⟨lookupTrip_setTrip_self _ _ _, countKey_setTrip_self _ _ _, ?_⟩
  simp only [seqsFor, start_trip_monitoring, List.filter_append, List.length_append]
  simp

/-- Witness for `C2_amended`: two starts for trip id 1 on a fresh system. -/
theorem C2_amended_witness :
    lookupTrip (start_trip_monitoring
        (start_trip_monitoring Config.init 1 7 2 0 5) 1 9 3 100 6).trips 1
      = some (mkTripRec 100 9 3 6) ∧
    countKey (start_trip_monitoring
        (start_trip_monitoring Config.init 1 7 2 0 5) 1 9 3 100 6).trips 1 = 1 ∧
    (seqsFor (start_trip_monitoring
        (start_trip_monitoring Config.init 1 7 2 0 5) 1 9 3 100 6) 1).length
      = (seqsFor Config.init 1).length + 2 :=
  C2_amended (fun _ => true) Config.init
    (start_trip_monitoring Config.init 1 7 2 0 5)
    (start_trip_monitoring (start_trip_monitoring Config.init 1 7 2 0 5) 1 9 3 100 6)
    1 7 9 5 6 2 3 0 100 rfl rfl

/-! ### Claim C3 -/

/-- Claim C3's final clause is false of the code: `_confirm_safe_return` has no
`return` statement, so it evaluates to `None` both when it resolves the
watch and when no active watch exists — a subsequent call does not report
that no active watch exists (there is no distinguishable report at all). -/
theorem C3_counterexample :
    (confirm_safe_return (fun _ => true)
        (confirm_safe_return (fun _ => true) [(1, mkTripRec 0 7 2 5)] 1).trips 1).ret
      = none ∧
    (confirm_safe_return (fun _ => true) [(1, mkTripRec 0 7 2 5)] 1).ret = none := by decide

/-- Claim C3 (amended): `_confirm_safe_return` is idempotent per trip id — for
an active watch with a resolvable owner, the first call sends exactly one
safe-return acknowledgment and removes the watch from the active set; any
subsequent call for the same trip id has no side effect (no notification,
active set unchanged) — but it returns `None` in every case rather than
reporting whether an active watch existed. -/
theorem C3_amended (g : Nat → Bool) (ts : Trips) (tid : Nat) (tr : TripRec)
    (ht : lookupTrip ts tid = some tr) (hu : g tr.user_id = true) :
    ConfirmIdem g ts tid := by
  have h1 : confirm_safe_return g ts tid =
      { trips := eraseTrip ts tid, events := [Event.safeAck tid], ret := none } := by
    simp [confirm_safe_return, ht, hu]
  unfold ConfirmIdem
  rw [h1]
  simp [confirm_safe_return, lookupTrip_eraseTrip_self]

/-- Witness for `C3_amended` at a concrete one-watch state. -/
theorem C3_amended_witness :
    ConfirmIdem (fun _ => true) [(1, mkTripRec 0 7 2 5)] 1 :=
  C3_amended (fun _ => true) [(1, mkTripRec 0 7 2 5)] 1 (mkTripRec 0 7 2 5)
    (by decide) (by decide)

/-! ### Claim C4 -/

/-- Claim C4 as stated is false of the code: for a watch started at 0 with
duration 2 hours, the stored deadline `check_in_required` is
`start + (2+1)·3600 = 10800`, not `start + 2·3600 = 7200`; the reminder
fires at `start + 2·3600` (the `asyncio.sleep(duration_hours * 3600)`),
which is one hour before the stored deadline. -/
theorem C4_counterexample :
    (mkTripRec 0 7 2 5).check_in_required ≠ 0 + 2 * 3600 ∧
    reminder_fire_time (mkTripRec 0 7 2 5) = 0 + 2 * 3600 := by decide

/-- Claim C4 (amended): for every start with duration_hours > 0 the stored
check-in deadline equals start + (duration_hours + 1) hours, while the
check-in sequence fires its reminder at start + duration_hours hours —
exactly one hour before the stored deadline. -/
theorem C4_amended (now : Int) (uid : Nat) (dur : Int) (chan : Nat) (_hd : 0 < dur) :
    (mkTripRec now uid dur chan).check_in_required = now + (dur + 1) * 3600 ∧
    reminder_fire_time (mkTripRec now uid dur chan) = now + dur * 3600 ∧
    (mkTripRec now uid dur chan).check_in_required
      = reminder_fire_time (mkTripRec now uid dur chan) + 3600 := by
  refine ⟨rfl, rfl, ?_⟩
  simp only [mkTripRec, reminder_fire_time, sleep_seconds]
  ring

/-- Witness for `C4_amended` with duration 2 hours. -/
theorem C4_amended_witness :
    (0 : Int) < 2 ∧
    ((mkTripRec 0 7 2 5).check_in_required = 0 + (2 + 1) * 3600 ∧
     reminder_fire_time (mkTripRec 0 7 2 5) = 0 + 2 * 3600 ∧
     (mkTripRec 0 7 2 5).check_in_required
       = reminder_fire_time (mkTripRec 0 7 2 5) + 3600) :=
  ⟨by decide, C4_amended 0 7 2 5 (by decide)⟩

/-! ### Claim C5 -/

/-- Claim C5 (confirmed): a sleeping check-in sequence whose watch was already
confirmed safe (removed from `active_trips`) terminates on wake — the
membership test at the top of `_send_check_in_reminder` returns — sending no
reminder and enabling no later escalation or confirmation dispatch from that
sequence. -/
theorem C5_confirmed (g : Nat → Bool) (c c' : Config) (i : Nat) (s : CheckInSeq)
    (hs : c.seqs.get? i = some s) (hph : s.phase = Phase.sleeping)
    (habs : lookupTrip c.trips s.tid = none)
    (hstep : step g c (Action.wake i) = some c') :
    WakeSkips g c c' i s := by
  simp only [step, hs, hph, habs, Option.some.injEq] at hstep
  subst hstep
  have hget : ((c.seqs.set i { tid := s.tid, phase := Phase.done }).get? i)
      = some { tid := s.tid, phase := Phase.done } := get?_set_self _ _ _ _ hs
  have hget2 : (c.seqs.set i { tid := s.tid, phase := Phase.done })[i]?
      = some { tid := s.tid, phase := Phase.done } := by
    rw [← List.get?_eq_getElem?]
    exact hget
  unfold WakeSkips
  refine ⟨rfl, rfl, hget, ?_, ?_, ?_, ?_⟩ <;> simp [step, hget2]

/-- Witness for `C5_confirmed`: the single watch was confirmed (and removed)
before its sequence woke. -/
theorem C5_confirmed_witness :
    WakeSkips (fun _ => true)
      { trips := [], seqs := [{ tid := 1, phase := Phase.sleeping }], events := [] }
      { trips := [], seqs := [{ tid := 1, phase := Phase.done }], events := [] }
      0 { tid := 1, phase := Phase.sleeping } :=
  C5_confirmed (fun _ => true) _ _ 0 _ (by decide) (by decide) (by decide) (by decide)

/-! ### Claim C6 -/

/-- Claim C6 as stated is false of the code: `start_trip_monitoring` performs
no duration check, so a call with duration_hours = 0 is not rejected — the
watch is created and a check-in sequence is scheduled. -/
theorem C6_counterexample :
    (run (fun _ => true) Config.init [Action.start 1 7 0 0 5]).map
        (fun c => ((lookupTrip c.trips 1).isSome, (seqsFor c 1).length))
      = some (true, 1) := by decide

/-- Claim C6 (amended): a start with duration_hours ≤ 0 is accepted as an
instant-overdue watch: the watch is created, one check-in sequence is
scheduled, its `asyncio.sleep(duration_hours * 3600)` has non-positive
length (so it elapses immediately), and the wake sends the check-in reminder
at once. -/
theorem C6_amended (g : Nat → Bool) (tid uid chan : Nat) (dur now : Int)
    (hd : dur ≤ 0) (hu : g uid = true) :
    InstantOverdueStart g tid uid dur now chan := by
  unfold InstantOverdueStart
  refine ⟨rfl, lookupTrip_setTrip_self _ _ _, ?_, ?_, ?_⟩
  · simp [seqsFor, start_trip_monitoring, Config.init]
  · have h := mul_le_mul_of_nonneg_right hd (by norm_num : (0 : Int) ≤ 3600)
    simpa [sleep_seconds, mkTripRec] using h
  · simp [step, start_trip_monitoring, Config.init, setTrip, eraseTrip, lookupTrip,
      mkTripRec, hu]

/-- Witness for `C6_amended` at duration 0. -/
theorem C6_amended_witness :
    InstantOverdueStart (fun _ => true) 1 7 0 0 5 :=
  C6_amended (fun _ => true) 1 7 5 0 0 (by decide) (by decide)

/-! ### Claim C7 -/

theorem anyPrecip_false {w : WeatherDict} (hz : ∀ f ∈ w.forecast, f.precipitation = 0) :
    w.forecast.any (fun f => decide (0 < f.precipitation)) = false := by
  rw [Bool.eq_false_iff]
  intro hany
  rw [List.any_eq_true] at hany
  obtain ⟨f, hf, hp⟩ := hany
  rw [decide_eq_true_eq] at hp
  rw [hz f hf] at hp
  exact lt_irrefl 0 hp

theorem anyPrecip_true {w : WeatherDict} (hnn : ∀ f ∈ w.forecast, 0 ≤ f.precipitation)
    (hex : ∃ f ∈ w.forecast, f.precipitation ≠ 0) :
    w.forecast.any (fun f => decide (0 < f.precipitation)) = true := by
  obtain ⟨f, hf, hne⟩ := hex
  rw [List.any_eq_true]
  exact ⟨f, hf, decide_eq_true (lt_of_le_of_ne (hnn f hf) (Ne.symm hne))⟩

theorem levelColor_fst (s : Int) :
    (80 ≤ s → (levelColor s).1 = "GOOD") ∧
    (60 ≤ s ∧ s < 80 → (levelColor s).1 = "FAIR") ∧
    (40 ≤ s ∧ s < 60 → (levelColor s).1 = "POOR") ∧
    (s < 40 → (levelColor s).1 = "DANGEROUS") := by
  unfold levelColor
  refine ⟨?_, ?_, ?_, ?_⟩
  · intro h; rw [if_pos h]
  · rintro ⟨h1, h2⟩; rw [if_neg (by omega), if_pos h1]
  · rintro ⟨h1, h2⟩; rw [if_neg (by omega), if_neg (by omega), if_pos h1]
  · intro h; rw [if_neg (by omega), if_neg (by omega), if_neg (by omega)]

/-- Claim C7 (confirmed): on structured weather with (physically) non-negative
precipitation values, `_assess_safety` matches the spec's scoring table —
wind at or below 15 with no precipitation gives 100/GOOD/no warnings; wind
above 15 alone gives 70/FAIR with exactly one warning containing "wind";
non-zero precipitation alone gives 80 with exactly one warning containing
"Precipitation"; both give 50; and the level ladder is GOOD ≥ 80,
FAIR ≥ 60, POOR ≥ 40, else DANGEROUS. -/
theorem C7_confirmed (w : WeatherDict) (hnn : ∀ f ∈ w.forecast, 0 ≤ f.precipitation) :
    ScoringTable w := by
  unfold ScoringTable
  refine ⟨?_, ?_, ?_, ?_, ?_, ?_, ?_, ?_⟩
  · rintro ⟨hw, hz⟩
    have hhit := anyPrecip_false hz
    simp [assess_safety, assessScoreWarnings, not_lt.mpr hw, hhit, levelColor]
  · rintro ⟨hw, hz⟩
    have hhit := anyPrecip_false hz
    refine ⟨?_, ?_, ?_, by decide⟩ <;>
      simp [assess_safety, assessScoreWarnings, hw, hhit, levelColor]
  · rintro ⟨hw, hex⟩
    have hhit := anyPrecip_true hnn hex
    refine ⟨?_, ?_, by decide⟩ <;>
      simp [assess_safety, assessScoreWarnings, not_lt.mpr hw, hhit, levelColor]
  · rintro ⟨hw, hex⟩
    have hhit := anyPrecip_true hnn hex
    simp [assess_safety, assessScoreWarnings, hw, hhit]
  · exact fun h => (levelColor_fst _).1 h
  · exact fun h => (levelColor_fst _).2.1 h
  · exact fun h => (levelColor_fst _).2.2.1 h
  · exact fun h => (levelColor_fst _).2.2.2 h

/-- Witness for `C7_confirmed`: wind 5, one forecast interval with zero
precipitation. -/
theorem C7_confirmed_witness :
    (∀ f ∈ (WeatherDict.mk ⟨5⟩ [⟨0⟩]).forecast, 0 ≤ f.precipitation) ∧
    ScoringTable (WeatherDict.mk ⟨5⟩ [⟨0⟩]) :=
  ⟨by decide, C7_confirmed (WeatherDict.mk ⟨5⟩ [⟨0⟩]) (by decide)⟩

/-! ### Claim C8 -/

/-- Claim C8 (confirmed): when geocoding yields nothing, `plan_trip` returns
`(None, "Location not found")` and its collaborator-call log contains no
weather, tide or current call. -/
theorem C8_confirmed {τ κ : Type} (env : Collaborators τ κ) (location date time : String)
    (duration : Int) (trip_name : Option String)
    (h : env.geocode location = none) :
    GeoMissResult env location date time duration trip_name := by
  unfold GeoMissResult
  simp [plan_trip, h]

/-- Witness for `C8_confirmed`: a collaborator environment whose geocoder
resolves nothing. -/
theorem C8_confirmed_witness :
    GeoMissResult
      (Collaborators.mk (fun _ => none) (fun _ _ _ => WeatherData.err "down")
        (fun _ _ => ()) (fun _ _ => ()) : Collaborators Unit Unit)
      "Atlantis" "2026-06-01" "09:00" 3 none :=
  C8_confirmed _ "Atlantis" "2026-06-01" "09:00" 3 none rfl

/-! ### Claim C9 -/

theorem primaryCount_append (db₁ db₂ : ContactDB) (uid : Nat) :
    primaryCount (db₁ ++ db₂) uid = primaryCount db₁ uid + primaryCount db₂ uid := by
  simp [primaryCount, get_ice_contacts, List.filter_append]

theorem primaryCount_demoteAll_self (db : ContactDB) (uid : Nat) :
    primaryCount (demoteAll db uid) uid = 0 := by
  induction db with
  | nil => rfl
  | cons c rest ih =>
      by_cases h : c.user_id = uid <;>
        simp [demoteAll, primaryCount, get_ice_contacts, List.filter_cons, h] at ih ⊢ <;>
        simpa [h] using ih

theorem get_ice_contacts_demoteAll_ne (db : ContactDB) (uid uid' : Nat) (h : uid' ≠ uid) :
    get_ice_contacts (demoteAll db uid) uid' = get_ice_contacts db uid' := by
  induction db with
  | nil => rfl
  | cons c rest ih =>
      simp only [demoteAll, List.map_cons, get_ice_contacts, List.filter_cons] at ih ⊢
      by_cases hc : c.user_id = uid
      · simp [hc, Ne.symm h, ih]
      · simp [hc, ih]

theorem primaryCount_add (db : ContactDB) (nid uid : Nat) (nm ph rel : String)
    (pr : Bool) (uid' : Nat) (h : primaryCount db uid' ≤ 1) :
    primaryCount (add_ice_contact db nid uid nm ph rel pr) uid' ≤ 1 := by
  unfold add_ice_contact
  cases pr with
  | false =>
      rw [if_neg (by simp), primaryCount_append]
      simpa [primaryCount, get_ice_contacts] using h
  | true =>
      rw [if_pos rfl, primaryCount_append]
      by_cases he : uid' = uid
      · subst he
        rw [primaryCount_demoteAll_self]
        simp [primaryCount, get_ice_contacts]
      · have hd : primaryCount (demoteAll db uid) uid' = primaryCount db uid' := by
          unfold primaryCount
          rw [get_ice_contacts_demoteAll_ne db uid uid' he]
        rw [hd]
        simpa [primaryCount, get_ice_contacts, Ne.symm he] using h

theorem runAdds_primaryCount (ops : List AddOp) :
    ∀ (db : ContactDB) (nid : Nat), (∀ u, primaryCount db u ≤ 1) →
      ∀ u, primaryCount (runAdds db nid ops) u ≤ 1 := by
  induction ops with
  | nil => intro db nid h u; exact h u
  | cons op rest ih =>
      intro db nid h u
      exact ih _ _
        (fun u' => primaryCount_add db nid op.user_id op.contact_name op.contact_phone
          op.relationship op.is_primary u' (h u')) u

/-- Claim C9's ordering clause is false of the code: `get_ice_contacts` runs
`SELECT * ... WHERE user_id = ?` with no ORDER BY, so rows come back in
insertion (rowid) order.  Adding a non-primary contact first and a primary
contact second yields a list whose one primary contact comes last, not
first. -/
theorem C9_counterexample :
    primaryFirst (get_ice_contacts
        (add_ice_contact (add_ice_contact [] 1 7 "Alice" "555-0001" "friend" false)
          2 7 "Bob" "555-0002" "spouse" true) 7) = false ∧
    ((get_ice_contacts
        (add_ice_contact (add_ice_contact [] 1 7 "Alice" "555-0001" "friend" false)
          2 7 "Bob" "555-0002" "spouse" true) 7).filter
        (fun c => c.is_primary)).length = 1 := by decide

/-- Claim C9 (amended): `get_ice_contacts` returns the owner's contacts in
insertion (rowid) order — a subsequence of the table, with no primary-first
reordering — and after every sequence of add-contact calls at most one
contact per owner is primary, since adding a new primary demotes all of that
owner's previous contacts in the same operation. -/
theorem C9_amended (ops : List AddOp) (uid : Nat) :
    primaryCount (runAdds [] 1 ops) uid ≤ 1 ∧
    List.Sublist (get_ice_contacts (runAdds [] 1 ops) uid) (runAdds [] 1 ops) := by
  refine ⟨runAdds_primaryCount ops [] 1 (fun u => by simp [primaryCount, get_ice_contacts]) uid, ?_⟩
  exact List.filter_sublist _

/-! ### Claim C10 -/

/-- Claim C10 (confirmed): `_assess_safety` on any non-dict weather value — in
particular the error string `get_weather_forecast` returns on a fetch
failure — fails the `isinstance(weather, dict)` test, applies no penalty,
and returns score 100, level GOOD, and an empty warning list. -/
theorem C10_confirmed (s e : String) :
    assess_safety (WeatherData.err s)
      = { score := 100, level := "GOOD", color := 0x00FF00, warnings := [] } ∧
    assess_safety (weatherFetchError e)
      = { score := 100, level := "GOOD", color := 0x00FF00, warnings := [] } := by
  constructor <;> rfl

end KayakTrip
